import Mathlib

/-!
Verification development for the context-aggregation and narrative-generation
pipeline of the ai-model-serving-server repository, together with the two
pure frontend helpers (health-story generation and store-type category
mapping) that live in the React sources.

The backend Python services (`context_collector.py`, `trend_collector.py`,
`story_generator.py`) are not present in the source tree; only their callers,
response types and documentation are.  Definitions for those components are
therefore modelled from the specification, and are marked as such in their
doc comments.  The frontend helpers `generateHealthStory` and
`getMenuCategoriesByStoreType` are translated directly from the TypeScript
sources (`MenuBoardPage` and `SeasonalStoryPage`).
-/

/-- Season labels, as in the spec data model: one of spring, summer,
autumn, winter. -/
inductive Season where
  | spring
  | summer
  | autumn
  | winter
deriving DecidableEq, Repr

/-- Time-of-day buckets, as in the spec data model: one of morning, lunch,
afternoon, evening, night. -/
inductive TimeBucket where
  | morning
  | lunch
  | afternoon
  | evening
  | night
deriving DecidableEq, Repr

/-- Modelled from the spec: the SeasonResolver of `context_collector.py`
(absent from the source tree).  Deterministic Korean calendar bands:
March to May spring, June to August summer, September to November autumn,
December to February winter. -/
def resolveSeason (month : Nat) : Season :=
  if 3 ≤ month ∧ month ≤ 5 then Season.spring
  else if 6 ≤ month ∧ month ≤ 8 then Season.summer
  else if 9 ≤ month ∧ month ≤ 11 then Season.autumn
  else Season.winter

/-- Modelled from the spec: the TimeBucketResolver of `context_collector.py`
(absent from the source tree).  Hour-range partition: morning [06,11),
lunch [11,14), afternoon [14,18), evening [18,21), night [21,06)
wrapping midnight. -/
def resolveTimeBucket (hour : Nat) : TimeBucket :=
  if 6 ≤ hour ∧ hour < 11 then TimeBucket.morning
  else if 11 ≤ hour ∧ hour < 14 then TimeBucket.lunch
  else if 14 ≤ hour ∧ hour < 18 then TimeBucket.afternoon
  else if 18 ≤ hour ∧ hour < 21 then TimeBucket.evening
  else TimeBucket.night

/-- Korean display label for a time bucket, as surfaced in the
`time_info.period_kr` field of the API response. -/
def periodKrLabel : TimeBucket → String
  | TimeBucket.morning => "아침"
  | TimeBucket.lunch => "점심"
  | TimeBucket.afternoon => "오후"
  | TimeBucket.evening => "저녁"
  | TimeBucket.night => "밤"

/-- Weather snapshot, mirroring the `WeatherInfo` interface of
`frontend/src/types/index.ts`: condition, description, temperature,
feels-like, humidity, wind speed. -/
structure WeatherSnapshot where
  condition : String
  description : String
  temperature : Int
  feels_like : Int
  humidity : Int
  wind_speed : Int
deriving DecidableEq, Repr

/-- Modelled from the spec: the deterministic synthetic weather table of
WeatherSource (`context_collector.py`, absent from the source tree), keyed
by (season, time-bucket) and covering all twenty combinations.  The concrete
mock values are not fixed by the spec; only totality and determinism are. -/
def syntheticWeather : Season → TimeBucket → WeatherSnapshot
  | Season.spring, TimeBucket.morning => ⟨"clear", "맑음", 12, 11, 55, 2⟩
  | Season.spring, TimeBucket.lunch => ⟨"clear", "맑음", 17, 16, 50, 2⟩
  | Season.spring, TimeBucket.afternoon => ⟨"clouds", "구름 조금", 18, 17, 50, 3⟩
  | Season.spring, TimeBucket.evening => ⟨"clouds", "구름 많음", 14, 13, 60, 2⟩
  | Season.spring, TimeBucket.night => ⟨"clear", "맑음", 9, 8, 65, 1⟩
  | Season.summer, TimeBucket.morning => ⟨"clear", "맑음", 24, 25, 70, 2⟩
  | Season.summer, TimeBucket.lunch => ⟨"clear", "맑음", 29, 31, 65, 2⟩
  | Season.summer, TimeBucket.afternoon => ⟨"clouds", "구름 조금", 30, 32, 65, 3⟩
  | Season.summer, TimeBucket.evening => ⟨"rain", "소나기", 26, 27, 80, 3⟩
  | Season.summer, TimeBucket.night => ⟨"clouds", "구름 많음", 23, 24, 75, 1⟩
  | Season.autumn, TimeBucket.morning => ⟨"clear", "맑음", 10, 9, 60, 2⟩
  | Season.autumn, TimeBucket.lunch => ⟨"clear", "맑음", 16, 15, 50, 2⟩
  | Season.autumn, TimeBucket.afternoon => ⟨"clouds", "구름 조금", 17, 16, 50, 3⟩
  | Season.autumn, TimeBucket.evening => ⟨"clouds", "구름 많음", 12, 11, 55, 2⟩
  | Season.autumn, TimeBucket.night => ⟨"clear", "맑음", 7, 5, 60, 2⟩
  | Season.winter, TimeBucket.morning => ⟨"clouds", "흐림", -3, -6, 45, 3⟩
  | Season.winter, TimeBucket.lunch => ⟨"clear", "맑음", 2, 0, 40, 3⟩
  | Season.winter, TimeBucket.afternoon => ⟨"clear", "맑음", 3, 1, 40, 3⟩
  | Season.winter, TimeBucket.evening => ⟨"snow", "눈", -1, -4, 55, 2⟩
  | Season.winter, TimeBucket.night => ⟨"clear", "맑음", -5, -9, 50, 2⟩

/-- Modelled from the spec: `WeatherSource.fetch` of `context_collector.py`
(absent from the source tree).  The provider argument is the outcome of the
upstream weather call: `none` stands for a disabled provider (timeout,
non-2xx response, or missing credentials).  On provider absence the call
does not fail; it returns the synthetic snapshot keyed by the season and
time bucket derived from the request month and hour. -/
def weatherFetch (provider : Option WeatherSnapshot) (month hour : Nat) :
    WeatherSnapshot :=
  match provider with
  | some w => w
  | none => syntheticWeather (resolveSeason month) (resolveTimeBucket hour)

/-- Cache entry of the trend TTL cache, as in the spec data model:
a value with the timestamp at which it was inserted. -/
structure CacheEntry where
  value : List String
  insertedAt : Nat
deriving DecidableEq, Repr

/-- The trend cache maps normalized keys to entries; newest insertion wins
on lookup. -/
abbrev TrendCache : Type := List (String × CacheEntry)

/-- TTL for the trend cache, 300 seconds (`5분 캐싱` in the repository
documentation). -/
def TREND_TTL : Nat := 300

/-- A cached value is fresh iff now minus inserted-at is below the TTL. -/
def isFresh (now : Nat) (e : CacheEntry) : Bool :=
  now - e.insertedAt < TREND_TTL

/-- Modelled from the spec: the static built-in fallback keyword list of
`trend_collector.py` (absent from the source tree), returned when the
upstream trend provider fails and no cached value exists. -/
def STATIC_FALLBACK_TRENDS : List String := ["카페", "디저트", "신메뉴"]

/-- Modelled from the spec: `fetchTrends` of `trend_collector.py` (absent
from the source tree).  The upstream argument is the outcome of the upstream
trend-provider call (`none` means failure or timeout).  Returns the keyword
list, the updated cache, and whether an upstream call was triggered.
Fresh cache hit: cached value, no upstream call.  Miss or stale: upstream
call; on success store with the new timestamp, on failure return the stale
value if one exists, otherwise the static fallback list. -/
def fetchTrends (upstream : Option (List String)) (key : String) (now : Nat)
    (cache : TrendCache) : List String × TrendCache × Bool :=
  match List.lookup key cache with
  | some e =>
    if isFresh now e then (e.value, cache, false)
    else
      match upstream with
      | some v => (v, (key, ⟨v, now⟩) :: cache, true)
      | none => (e.value, cache, true)
  | none =>
    match upstream with
    | some v => (v, (key, ⟨v, now⟩) :: cache, true)
    | none => (STATIC_FALLBACK_TRENDS, cache, true)

/-- State of the per-key single-flight discipline required by the spec for
concurrent trend refreshes: the set of keys with a refresh in progress, and
the log of upstream calls started so far (as a list of keys). -/
structure SFState where
  inFlight : List String
  calls : List String
deriving DecidableEq, Repr

/-- Modelled from the spec: one concurrent caller observing a missing or
stale key arrives at the cache.  If a refresh for that key is already in
flight the caller awaits the first result and triggers nothing; otherwise
it marks the key in flight and starts the single upstream call. -/
def arrive (k : String) (s : SFState) : SFState :=
  if k ∈ s.inFlight then s else ⟨k :: s.inFlight, k :: s.calls⟩

/-- A run of concurrent arrivals, in some arbitrary interleaving order. -/
def runArrivals (ks : List String) (s : SFState) : SFState :=
  ks.foldl (fun t k => arrive k t) s

/-- Time information, mirroring the `TimeInfo` interface of
`frontend/src/types/index.ts` (period, Korean period label, hour, minute). -/
structure TimeInfo where
  period : TimeBucket
  period_kr : String
  hour : Nat
  minute : Nat
deriving DecidableEq, Repr

/-- Context, mirroring the `ContextInfo` interface of
`frontend/src/types/index.ts`: weather, season, time_info, trends,
location, timestamp — none of the fields is optional. -/
structure Context where
  weather : WeatherSnapshot
  season : Season
  time_info : TimeInfo
  trends : List String
  location : String
  timestamp : Nat
deriving DecidableEq, Repr

/-- Modelled from the spec: `ContextAggregator.build` of
`context_collector.py` (absent from the source tree).  An invalid (empty)
location is rejected before fan-out; otherwise the four sources are
consulted, each independently degrading to fallback data, and a fully
populated immutable context is returned. -/
def build (location : String) (month hour minute now : Nat)
    (weatherUp : Option WeatherSnapshot) (trendUp : Option (List String))
    (cache : TrendCache) : Except String Context :=
  if location = "" then Except.error "InvalidRequest: malformed location"
  else
    let bucket := resolveTimeBucket hour
    Except.ok
      ⟨weatherFetch weatherUp month hour,
       resolveSeason month,
       ⟨bucket, periodKrLabel bucket, hour, minute⟩,
       (fetchTrends trendUp location now cache).1,
       location,
       now⟩

/-- Error taxonomy entry for a failed per-variant generation call. -/
inductive GenError where
  | generationFailed
deriving DecidableEq, Repr

/-- Store profile, mirroring the request schema (store name, store type,
menu categories). -/
structure StoreProfile where
  store_name : String
  store_type : String
  menu_categories : List String
deriving DecidableEq, Repr

/-- Modelled from the spec and `SEASONAL_STORY_FEATURE.md`: the store-type
tone templates of `story_generator.py` (absent from the source tree), with
a neutral default for unrecognized types. -/
def toneTemplate (storeType : String) : String :=
  if storeType = "카페" then "친근하고 따뜻한 톤"
  else if storeType = "레스토랑" then "품격있고 전문적인 톤"
  else if storeType = "디저트" then "발랄하고 달콤한 톤"
  else if storeType = "술집" then "편안하고 캐주얼한 톤"
  else "중립적인 기본 톤"

/-- Modelled from the spec: the per-variant prompt built by
`story_generator.py` (absent from the source tree) from the weather
description and temperature, season, time-bucket label, tone template and
store name/type. -/
def buildPrompt (ctx : Context) (profile : StoreProfile) : String :=
  ctx.weather.description ++ " " ++ toString ctx.weather.temperature ++ "도, " ++
  periodKrLabel ctx.time_info.period ++ ", " ++
  profile.store_name ++ "(" ++ profile.store_type ++ "), " ++
  toneTemplate profile.store_type

/-- Maximum narrative length in characters (the repository documentation
records the bound as 60). -/
def MAX_STORY_LENGTH : Nat := 60

/-- Post-generation length enforcement: texts exceeding the bound are
truncated to it. -/
def truncateStory (s : String) : String :=
  String.mk (s.data.take MAX_STORY_LENGTH)

/-- A narrative variant: version label and generated text. -/
structure NarrativeVariant where
  label : String
  text : String
deriving DecidableEq, Repr

/-- Modelled from the spec: the per-variant results of the multi-variant
generation in `story_generator.py` (absent from the source
tree).  The backend argument is the generation capability
(prompt and temperature to text or error); the temperature parameter is
incremented across variants.  Each variant calls the backend once; a backend
error makes exactly that variant fail with GenerationFailed. -/
def genResults (backend : String → Nat → Except Unit String) (ctx : Context)
    (profile : StoreProfile) (variantCount : Nat) :
    List (Except GenError NarrativeVariant) :=
  (List.range variantCount).map fun i =>
    match backend (buildPrompt ctx profile) (i + 1) with
    | Except.ok text =>
        Except.ok ⟨"Version " ++ toString (i + 1), truncateStory text⟩
    | Except.error _ => Except.error GenError.generationFailed

/-- The log of backend invocations (prompt and temperature pairs) made for
one generation request, in request order. -/
def genCalls (ctx : Context) (profile : StoreProfile) (variantCount : Nat) :
    List (String × Nat) :=
  (List.range variantCount).map fun i => (buildPrompt ctx profile, i + 1)

/-- Modelled from the spec: `NarrativeComposer.generate`.  A variant count
out of the allowed 1 to 3 bound is rejected before any backend call;
otherwise the per-variant results and the backend call log are returned. -/
def generate (backend : String → Nat → Except Unit String) (ctx : Context)
    (profile : StoreProfile) (variantCount : Nat) :
    Except String (List (Except GenError NarrativeVariant) × List (String × Nat)) :=
  if variantCount < 1 ∨ 3 < variantCount then
    Except.error "InvalidRequest: variantCount out of bounds"
  else Except.ok (genResults backend ctx profile variantCount,
                  genCalls ctx profile variantCount)

/-- Nutrition estimate, mirroring the `NutritionEstimate` interface of
`frontend/src/types/index.ts`; every nutrient field is optional. -/
structure NutritionEstimate where
  calories : Option Int
  protein_g : Option Int
  carbs_g : Option Int
  fat_g : Option Int
  sugar_g : Option Int
  caffeine_mg : Option Int
deriving DecidableEq, Repr

/-- Menu item, mirroring the `MenuItem` shape used by `MenuBoardPage`
(name, category, price, optional description, ingredients and nutrition). -/
structure MenuItem where
  id : Int
  name : String
  category : String
  price : Int
  description : Option String
  ingredients : Option (List String)
  nutrition : Option NutritionEstimate
deriving DecidableEq, Repr

/-- JavaScript truthiness of an optional number: absent and zero are falsy. -/
def truthy : Option Int → Bool
  | none => false
  | some x => x ≠ 0

/-- The calorie rule of `generateHealthStory`: a JavaScript truthiness
guard on the calorie field, then one of four band sentences. -/
def caloriesSentences (calories : Option Int) : List String :=
  match calories with
  | none => []
  | some c =>
    if c ≠ 0 then
      [if c < 200 then "가벼운 한 끼로 부담 없이 즐기기 좋습니다."
       else if c < 400 then "적당한 칼로리로 균형 잡힌 식사를 제공합니다."
       else if c < 600 then "든든한 한 끼로 에너지를 충전하기에 좋습니다."
       else "풍부한 영양으로 하루의 활력을 채워줍니다."]
    else []

/-- The protein rule of `generateHealthStory`: truthiness guard conjoined
with a threshold above 10 grams. -/
def proteinSentences (protein : Option Int) : List String :=
  match protein with
  | none => []
  | some p =>
    if p ≠ 0 ∧ p > 10 then
      [toString p ++ "g의 단백질이 근육 건강과 체력 향상에 도움을 줍니다."]
    else []

/-- The carbohydrate rule of `generateHealthStory`: truthiness guard
conjoined with a threshold above 30 grams. -/
def carbsSentences (carbs : Option Int) : List String :=
  match carbs with
  | none => []
  | some c =>
    if c ≠ 0 ∧ c > 30 then
      ["탄수화물이 빠른 에너지 공급원이 되어 활동적인 하루를 지원합니다."]
    else []

/-- The sugar rule of `generateHealthStory`: truthiness guard, then a
sentence only below 10 grams or above 20 grams — between the two bounds no
sentence fires. -/
def sugarSentences (sugar : Option Int) : List String :=
  match sugar with
  | none => []
  | some s =>
    if s ≠ 0 then
      if s < 10 then ["당류가 적어 건강하게 즐길 수 있습니다."]
      else if s > 20 then ["달콤한 맛이 기분을 좋게 만들어줍니다."]
      else []
    else []

/-- The caffeine rule of `generateHealthStory`: truthiness guard conjoined
with positivity, then one of three band sentences. -/
def caffeineSentences (caffeine : Option Int) : List String :=
  match caffeine with
  | none => []
  | some c =>
    if c ≠ 0 ∧ c > 0 then
      [if c < 50 then "소량의 카페인이 부드러운 각성 효과를 제공합니다."
       else if c < 150 then
         toString c ++ "mg의 카페인이 집중력 향상에 도움을 줍니다."
       else "카페인이 풍부하여 피로 회복과 집중력 향상에 효과적입니다."]
    else []

/-- The list of health-story sentences pushed by `generateHealthStory`
(`MenuBoardPage`), in the fixed rule order: calories, protein, carbs,
sugar, caffeine. -/
def healthSentences (n : NutritionEstimate) : List String :=
  caloriesSentences n.calories ++ proteinSentences n.protein_g ++
  carbsSentences n.carbs_g ++ sugarSentences n.sugar_g ++
  caffeineSentences n.caffeine_mg

/-- The space join performed on the collected sentences in the TypeScript
source. -/
def joinSpace : List String → String
  | [] => ""
  | [s] => s
  | s :: rest => s ++ " " ++ joinSpace rest

/-- Translated from `generateHealthStory` in `MenuBoardPage`
(frontend source): default sentence when no nutrition data exists, second
default when no rule fires, otherwise the space-joined fired sentences. -/
def generateHealthStory (menu : MenuItem) : String :=
  match menu.nutrition with
  | none => menu.name ++ "은(는) 신선한 재료로 만들어진 특별한 메뉴입니다."
  | some n =>
    if (healthSentences n).isEmpty then
      menu.name ++ "은(는) 균형 잡힌 영양으로 건강한 식사를 제공합니다."
    else joinSpace (healthSentences n)

/-- ASCII lower-casing of a character, as performed by the JavaScript
`toLowerCase` call on the store-type string (characters outside the
uppercase ASCII range, in particular all Korean characters, are unchanged). -/
def lowerChar (c : Char) : Char :=
  if c = 'A' then 'a' else if c = 'B' then 'b' else if c = 'C' then 'c'
  else if c = 'D' then 'd' else if c = 'E' then 'e' else if c = 'F' then 'f'
  else if c = 'G' then 'g' else if c = 'H' then 'h' else if c = 'I' then 'i'
  else if c = 'J' then 'j' else if c = 'K' then 'k' else if c = 'L' then 'l'
  else if c = 'M' then 'm' else if c = 'N' then 'n' else if c = 'O' then 'o'
  else if c = 'P' then 'p' else if c = 'Q' then 'q' else if c = 'R' then 'r'
  else if c = 'S' then 's' else if c = 'T' then 't' else if c = 'U' then 'u'
  else if c = 'V' then 'v' else if c = 'W' then 'w' else if c = 'X' then 'x'
  else if c = 'Y' then 'y' else if c = 'Z' then 'z' else c

/-- Substring test on character lists, as performed by the JavaScript
`String.prototype.includes` calls of `getMenuCategoriesByStoreType`. -/
def hasSub (pat : List Char) : List Char → Bool
  | [] => pat.isPrefixOf []
  | c :: t => pat.isPrefixOf (c :: t) || hasSub pat t

/-- The branch keywords tested by `getMenuCategoriesByStoreType`, in source
order. -/
def storeTypeKeywords : List String :=
  ["중국", "일식", "초밥", "한식", "양식", "이탈리", "파스타", "분식",
   "치킨", "카페", "커피", "디저트", "베이커리", "빵"]

/-- Translated from `getMenuCategoriesByStoreType` in `SeasonalStoryPage`
(frontend source): the store-type string is lower-cased, then tested against
the keyword branches in order; unmatched inputs fall through to the default
category list. -/
def getMenuCategoriesByStoreType (storeType : String) : List String :=
  let type := storeType.data.map lowerChar
  if hasSub "중국".data type then ["짜장면", "짬뽕", "탕수육", "볶음밥"]
  else if hasSub "일식".data type || hasSub "초밥".data type then
    ["초밥", "우동", "돈까스", "회"]
  else if hasSub "한식".data type then ["김치찌개", "된장찌개", "불고기", "비빔밥"]
  else if hasSub "양식".data type || hasSub "이탈리".data type ||
      hasSub "파스타".data type then ["파스타", "스테이크", "피자", "리조또"]
  else if hasSub "분식".data type then ["떡볶이", "김밥", "순대", "라면"]
  else if hasSub "치킨".data type then ["후라이드", "양념치킨", "간장치킨"]
  else if hasSub "카페".data type || hasSub "커피".data type then
    ["커피", "음료", "디저트"]
  else if hasSub "디저트".data type || hasSub "베이커리".data type ||
      hasSub "빵".data type then ["케이크", "빵", "마카롱", "쿠키"]
  else ["식사", "음료"]

/-- Claim C4: for every month 1 to 12 the season resolver returns exactly
one of the four seasons, following the Korean calendar bands; in particular
the boundary months March, June, September and December map to spring,
summer, autumn and winter respectively. -/
theorem claim_C4 (m : Nat) (hm1 : 1 ≤ m) (hm2 : m ≤ 12) :
    (resolveSeason m = Season.spring ↔ 3 ≤ m ∧ m ≤ 5) ∧
    (resolveSeason m = Season.summer ↔ 6 ≤ m ∧ m ≤ 8) ∧
    (resolveSeason m = Season.autumn ↔ 9 ≤ m ∧ m ≤ 11) ∧
    (resolveSeason m = Season.winter ↔ m = 12 ∨ m ≤ 2) := by
  interval_cases m <;> decide

/-- Witness for claim C4 at the boundary month March. -/
theorem claim_C4_witness :
    (1 ≤ 3 ∧ 3 ≤ 12) ∧ resolveSeason 3 = Season.spring :=
  ⟨by decide, ((claim_C4 3 (by decide) (by decide)).1).mpr (by decide)⟩

/-- Claim C5: for every hour 0 to 23 the time-bucket resolver returns
exactly one of the five buckets, and the five hour ranges partition the
24-hour day with no gap and no overlap (night wraps midnight). -/
theorem claim_C5 (h : Nat) (hh : h ≤ 23) :
    (resolveTimeBucket h = TimeBucket.morning ↔ 6 ≤ h ∧ h < 11) ∧
    (resolveTimeBucket h = TimeBucket.lunch ↔ 11 ≤ h ∧ h < 14) ∧
    (resolveTimeBucket h = TimeBucket.afternoon ↔ 14 ≤ h ∧ h < 18) ∧
    (resolveTimeBucket h = TimeBucket.evening ↔ 18 ≤ h ∧ h < 21) ∧
    (resolveTimeBucket h = TimeBucket.night ↔ 21 ≤ h ∨ h < 6) := by
  interval_cases h <;> decide

/-- Witness for claim C5 at the midnight-wrapping hour 23. -/
theorem claim_C5_witness :
    (23 ≤ 23) ∧ resolveTimeBucket 23 = TimeBucket.night :=
  ⟨by decide, ((claim_C5 23 (by decide)).2.2.2.2).mpr (by decide)⟩

/-- Claim C7: with the weather provider disabled, the fetch never fails and
is deterministic in the derived (season, time-bucket) pair — two calls whose
derived pair agrees return identical synthetic snapshots — and the synthetic
table defines a value for every season and bucket combination. -/
theorem claim_C7 (m1 h1 m2 h2 : Nat)
    (hs : resolveSeason m1 = resolveSeason m2)
    (hb : resolveTimeBucket h1 = resolveTimeBucket h2) :
    weatherFetch none m1 h1 = weatherFetch none m2 h2 ∧
    (∀ s b, (syntheticWeather s b).description ≠ "") := by
  constructor
  · simp only [weatherFetch, hs, hb]
  · intro s b
    cases s <;> cases b <;> simp [syntheticWeather]

/-- Witness for claim C7: November 18:30 and October 20:00 derive the same
(autumn, evening) pair and get the same synthetic snapshot. -/
theorem claim_C7_witness :
    (resolveSeason 11 = resolveSeason 10 ∧
     resolveTimeBucket 18 = resolveTimeBucket 20) ∧
    weatherFetch none 11 18 = weatherFetch none 10 20 :=
  ⟨⟨by decide, by decide⟩,
   (claim_C7 11 18 10 20 (by decide) (by decide)).1⟩

/-- Claim C6: cached trend values are fresh exactly below the 300-second
TTL; after a successful refresh, a second call on the same key within 300
seconds is served from cache with no upstream call, while a call 300 or
more seconds after the refresh triggers a second upstream call. -/
theorem claim_C6 (key : String) (v0 : List String) (t0 t1 t2 now : Nat)
    (cache0 : TrendCache) (u1 u2 : Option (List String)) (e : CacheEntry)
    (hmiss : List.lookup key cache0 = none)
    (h01 : t1 - t0 < 300) (h02 : 300 ≤ t2 - t0) :
    (isFresh now e = true ↔ now - e.insertedAt < 300) ∧
    (fetchTrends (some v0) key t0 cache0).2.2 = true ∧
    fetchTrends u1 key t1 (fetchTrends (some v0) key t0 cache0).2.1 =
      (v0, (fetchTrends (some v0) key t0 cache0).2.1, false) ∧
    (fetchTrends u2 key t2 (fetchTrends (some v0) key t0 cache0).2.1).2.2 =
      true := by
  have hc : (fetchTrends (some v0) key t0 cache0).2.1 =
      (key, ⟨v0, t0⟩) :: cache0 := by
    simp [fetchTrends, hmiss]
  have hlook : List.lookup key ((key, (⟨v0, t0⟩ : CacheEntry)) :: cache0) =
      some ⟨v0, t0⟩ := by
    simp [List.lookup]
  refine ⟨by simp [isFresh, TREND_TTL], by simp [fetchTrends, hmiss], ?_, ?_⟩
  · rw [hc]
    have hfresh : isFresh t1 (⟨v0, t0⟩ : CacheEntry) = true := by
      simp [isFresh, TREND_TTL]
      omega
    simp [fetchTrends, hlook, hfresh]
  · rw [hc]
    have hstale : isFresh t2 (⟨v0, t0⟩ : CacheEntry) = false := by
      simp [isFresh, TREND_TTL]
      omega
    cases u2 <;> simp [fetchTrends, hlook, hstale]

/-- Witness for claim C6: refresh at time 1000, hit at 1200, second
upstream call at 1400. -/
theorem claim_C6_witness :
    (List.lookup "Seoul" ([] : TrendCache) = none ∧
      1200 - 1000 < 300 ∧ 300 ≤ 1400 - 1000) ∧
    fetchTrends none "Seoul" 1200
        (fetchTrends (some ["단풍"]) "Seoul" 1000 []).2.1 =
      (["단풍"], (fetchTrends (some ["단풍"]) "Seoul" 1000 []).2.1, false) ∧
    (fetchTrends none "Seoul" 1400
        (fetchTrends (some ["단풍"]) "Seoul" 1000 []).2.1).2.2 = true := by
  have h := claim_C6 "Seoul" ["단풍"] 1000 1200 1400 0 [] none none ⟨[], 0⟩
    rfl (by decide) (by decide)
  exact ⟨⟨rfl, by decide, by decide⟩, h.2.2.1, h.2.2.2⟩

/-- In-flight markers are only ever added by arrivals, never removed. -/
theorem arrive_inFlight_mono (k k2 : String) (s : SFState)
    (h : k ∈ s.inFlight) : k ∈ (arrive k2 s).inFlight := by
  unfold arrive
  split
  · exact h
  · exact List.mem_cons_of_mem _ h

/-- A key whose refresh is already in flight gains no further upstream
calls from any further arrivals. -/
theorem runArrivals_count_of_inFlight (ks : List String) (s : SFState)
    (k : String) (h : k ∈ s.inFlight) :
    (runArrivals ks s).calls.count k = s.calls.count k := by
  induction ks generalizing s with
  | nil => rfl
  | cons k0 ks ih =>
    show (runArrivals ks (arrive k0 s)).calls.count k = _
    rw [ih (arrive k0 s) (arrive_inFlight_mono k k0 s h)]
    unfold arrive
    split
    · rfl
    · rename_i hk0
      have hne : k ≠ k0 := fun he => hk0 (he ▸ h)
      simp [List.count_cons, hne]

/-- Arrivals on other keys never trigger upstream calls for this key. -/
theorem runArrivals_count_of_notMem (ks : List String) (s : SFState)
    (k : String) (h : k ∉ ks) :
    (runArrivals ks s).calls.count k = s.calls.count k := by
  induction ks generalizing s with
  | nil => rfl
  | cons k0 ks ih =>
    have hne : k ≠ k0 := fun he => h (he ▸ List.mem_cons_self k0 ks)
    have hks : k ∉ ks := fun hm => h (List.mem_cons_of_mem _ hm)
    show (runArrivals ks (arrive k0 s)).calls.count k = _
    rw [ih (arrive k0 s) hks]
    unfold arrive
    split
    · rfl
    · simp [List.count_cons, hne]

/-- A key not yet in flight that is hit by at least one arrival gains
exactly one upstream call, regardless of how many arrivals hit it. -/
theorem runArrivals_count_of_mem (ks : List String) (s : SFState)
    (k : String) (hm : k ∈ ks) (hnin : k ∉ s.inFlight) :
    (runArrivals ks s).calls.count k = s.calls.count k + 1 := by
  induction ks generalizing s with
  | nil => cases hm
  | cons k0 ks ih =>
    show (runArrivals ks (arrive k0 s)).calls.count k = _
    by_cases he : k = k0
    · subst he
      have harr : arrive k s = ⟨k :: s.inFlight, k :: s.calls⟩ := by
        simp [arrive, hnin]
      rw [harr,
        runArrivals_count_of_inFlight ks _ k (List.mem_cons_self _ _)]
      simp [List.count_cons]
    · have hm2 : k ∈ ks := by
        cases hm with
        | head => exact absurd rfl he
        | tail _ hmem => exact hmem
      have hnin2 : k ∉ (arrive k0 s).inFlight := by
        unfold arrive
        split
        · exact hnin
        · intro hc
          rcases List.mem_cons.mp hc with h1 | h1
          · exact he h1
          · exact hnin h1
      rw [ih (arrive k0 s) hm2 hnin2]
      unfold arrive
      split
      · rfl
      · simp [List.count_cons, he]

/-- Claim C8: under the per-key single-flight discipline, any interleaving
of concurrent arrivals on a missing or stale key triggers at most one
upstream call for that key — exactly one when the key is hit and idle —
while arrivals on distinct keys proceed independently (they never add calls
for this key, and a hit on this key still gets its one call no matter what
other keys are doing). -/
theorem claim_C8 (ks : List String) (s : SFState) (k : String) :
    ((runArrivals ks s).calls.count k ≤
      s.calls.count k + (if k ∈ s.inFlight then 0 else 1)) ∧
    (k ∈ ks → k ∉ s.inFlight →
      (runArrivals ks s).calls.count k = s.calls.count k + 1) ∧
    (k ∉ ks → (runArrivals ks s).calls.count k = s.calls.count k) := by
  refine ⟨?_, fun hm hn => runArrivals_count_of_mem ks s k hm hn,
    fun hn => runArrivals_count_of_notMem ks s k hn⟩
  by_cases hin : k ∈ s.inFlight
  · simp [hin, runArrivals_count_of_inFlight ks s k hin]
  · simp only [hin, if_neg]
    by_cases hm : k ∈ ks
    · rw [runArrivals_count_of_mem ks s k hm hin]
      simp
    · rw [runArrivals_count_of_notMem ks s k hm]
      omega

/-- Witness for claim C8: three concurrent misses on the same key, one
upstream call. -/
theorem claim_C8_witness :
    (runArrivals ["Seoul", "Seoul", "Seoul"] ⟨[], []⟩).calls.count "Seoul" =
      List.count "Seoul" [] + 1 :=
  (claim_C8 ["Seoul", "Seoul", "Seoul"] ⟨[], []⟩ "Seoul").2.1
    (by decide) (by decide)

/-- Claim C1: for every context request with a valid location, the
aggregator succeeds and returns a context whose weather, season, time_info,
trends, location and timestamp fields are all populated (with fallback data
when either upstream is absent); the only failure mode is an invalid
location, rejected before fan-out. -/
theorem claim_C1 (location : String) (month hour minute now : Nat)
    (wUp : Option WeatherSnapshot) (tUp : Option (List String))
    (cache : TrendCache) :
    (location ≠ "" →
      build location month hour minute now wUp tUp cache =
        Except.ok ⟨weatherFetch wUp month hour, resolveSeason month,
          ⟨resolveTimeBucket hour, periodKrLabel (resolveTimeBucket hour),
           hour, minute⟩,
          (fetchTrends tUp location now cache).1, location, now⟩) ∧
    (location = "" →
      build location month hour minute now wUp tUp cache =
        Except.error "InvalidRequest: malformed location") := by
  constructor
  · intro h
    simp [build, h]
  · intro h
    simp [build, h]

/-- Witness for claim C1: a Seoul request with both upstreams disabled
still aggregates a fully populated context. -/
theorem claim_C1_witness :
    ("Seoul" ≠ "") ∧
    build "Seoul" 11 18 30 1000 none none [] =
      Except.ok ⟨weatherFetch none 11 18, resolveSeason 11,
        ⟨resolveTimeBucket 18, periodKrLabel (resolveTimeBucket 18), 18, 30⟩,
        (fetchTrends none "Seoul" 1000 []).1, "Seoul", 1000⟩ :=
  ⟨by decide, (claim_C1 "Seoul" 11 18 30 1000 none none []).1 (by decide)⟩

/-- Claim C2: for an allowed variant count N between 1 and 3, generation
succeeds, produces at most N variants (exactly N result slots), labels the
result at position i as Version i+1 in request order, and every returned
text is at most the configured 60-character bound after truncation. -/
theorem claim_C2 (backend : String → Nat → Except Unit String)
    (ctx : Context) (profile : StoreProfile) (N : Nat)
    (h1 : 1 ≤ N) (h3 : N ≤ 3) :
    generate backend ctx profile N =
      Except.ok (genResults backend ctx profile N, genCalls ctx profile N) ∧
    (genResults backend ctx profile N).length = N ∧
    ((genResults backend ctx profile N).filterMap Except.toOption).length ≤
      N ∧
    (∀ i (hi : i < (genResults backend ctx profile N).length)
        (v : NarrativeVariant),
      (genResults backend ctx profile N).get ⟨i, hi⟩ = Except.ok v →
      v.label = "Version " ++ toString (i + 1) ∧
        v.text.length ≤ MAX_STORY_LENGTH) := by
  have hlen : (genResults backend ctx profile N).length = N := by
    simp [genResults]
  have hbound : ¬(N < 1 ∨ 3 < N) := by omega
  refine ⟨by simp only [generate, if_neg hbound], hlen, ?_, ?_⟩
  · calc ((genResults backend ctx profile N).filterMap Except.toOption).length
        ≤ (genResults backend ctx profile N).length :=
          List.length_filterMap_le _ _
      _ = N := hlen
  · intro i hi v hv
    simp only [genResults, List.get_map, List.get_range] at hv
    cases hb : backend (buildPrompt ctx profile) (i + 1) with
    | ok text =>
      rw [hb] at hv
      simp only [Except.ok.injEq] at hv
      subst hv
      refine ⟨rfl, ?_⟩
      simp only [truncateStory]
      show (text.data.take MAX_STORY_LENGTH).length ≤ MAX_STORY_LENGTH
      rw [List.length_take]
      omega
    | error e =>
      rw [hb] at hv
      simp at hv

/-- Sample context for the composer witnesses. -/
def sampleContext : Context :=
  ⟨syntheticWeather Season.autumn TimeBucket.evening, Season.autumn,
   ⟨TimeBucket.evening, "저녁", 18, 30⟩, ["단풍", "불금"], "Seoul", 1000⟩

/-- Sample cafe profile for the composer witnesses. -/
def sampleProfile : StoreProfile := ⟨"서울카페", "카페", ["커피", "디저트"]⟩

/-- Sample generation backend that fails exactly at temperature 2. -/
def sampleBackend : String → Nat → Except Unit String := fun _ t =>
  if t = 2 then Except.error ()
  else Except.ok "비 오는 가을 저녁, 따뜻한 아메리카노와 함께 여유를 느껴보세요."

/-- Witness for claim C2 at a concrete three-variant request. -/
theorem claim_C2_witness :
    (1 ≤ 3 ∧ 3 ≤ 3) ∧
    (genResults sampleBackend sampleContext sampleProfile 3).length = 3 :=
  ⟨by decide,
   (claim_C2 sampleBackend sampleContext sampleProfile 3
     (by decide) (by decide)).2.1⟩

/-- Claim C3: a backend error for variant i makes exactly that variant fail
with GenerationFailed; the backend is called exactly once per variant (no
automatic retry); and the result of any variant depends only on its own
backend call, so a sibling failure cannot change it. -/
theorem claim_C3 (b1 b2 : String → Nat → Except Unit String)
    (ctx : Context) (profile : StoreProfile) (N i : Nat)
    (h1 : 1 ≤ N) (h3 : N ≤ 3) (hi : i < N) :
    generate b1 ctx profile N =
      Except.ok (genResults b1 ctx profile N, genCalls ctx profile N) ∧
    (b1 (buildPrompt ctx profile) (i + 1) = Except.error () →
      (genResults b1 ctx profile N)[i]? =
        some (Except.error GenError.generationFailed)) ∧
    @List.count _ instBEqOfDecidableEq (buildPrompt ctx profile, i + 1)
      (genCalls ctx profile N) = 1 ∧
    (b1 (buildPrompt ctx profile) (i + 1) =
        b2 (buildPrompt ctx profile) (i + 1) →
      (genResults b1 ctx profile N)[i]? =
        (genResults b2 ctx profile N)[i]?) := by
  have hbound : ¬(N < 1 ∨ 3 < N) := by omega
  have hrange : (List.range N)[i]? = some i := List.getElem?_range hi
  refine ⟨by simp only [generate, if_neg hbound], ?_, ?_, ?_⟩
  · intro hb
    simp [genResults, List.getElem?_map, hrange, hb]
  · have hinj : Function.Injective
        (fun j => ((buildPrompt ctx profile, j + 1) : String × Nat)) := by
      intro a b hab
      simpa using hab
    have hnodup : (genCalls ctx profile N).Nodup := by
      simp only [genCalls]
      exact (List.nodup_range N).map hinj
    have hmem : (buildPrompt ctx profile, i + 1) ∈ genCalls ctx profile N := by
      simp only [genCalls, List.mem_map]
      exact ⟨i, List.mem_range.mpr hi, rfl⟩
    exact List.count_eq_one_of_mem hnodup hmem
  · intro hagree
    simp only [genResults, List.getElem?_map, hrange, Option.map_some']
    rw [hagree]

/-- Witness for claim C3: with the sample backend failing at temperature 2,
variant 2 of 3 fails with GenerationFailed. -/
theorem claim_C3_witness :
    (1 ≤ 3 ∧ 3 ≤ 3 ∧ 1 < 3) ∧
    (genResults sampleBackend sampleContext sampleProfile 3)[1]? =
      some (Except.error GenError.generationFailed) :=
  ⟨by decide,
   (claim_C3 sampleBackend sampleBackend sampleContext sampleProfile 3 1
     (by decide) (by decide) (by decide)).2.1 rfl⟩

/-- Every sentence the calorie rule can push is non-empty. -/
theorem caloriesSentences_length_pos (o : Option Int) :
    ∀ s ∈ caloriesSentences o, 0 < s.length := by
  intro s hs
  rcases o with _ | c
  · simp [caloriesSentences] at hs
  · simp only [caloriesSentences] at hs
    split_ifs at hs <;>
      first
      | (simp only [List.mem_singleton] at hs; subst hs; decide)
      | simp at hs

/-- Every sentence the protein rule can push is non-empty. -/
theorem proteinSentences_length_pos (o : Option Int) :
    ∀ s ∈ proteinSentences o, 0 < s.length := by
  intro s hs
  rcases o with _ | p
  · simp [proteinSentences] at hs
  · simp only [proteinSentences] at hs
    split_ifs at hs
    · simp only [List.mem_singleton] at hs
      subst hs
      rw [String.length_append]
      have hlit : 0 < ("g의 단백질이 근육 건강과 체력 향상에 도움을 줍니다.").length := by
        decide
      omega
    · simp at hs

/-- Every sentence the carbohydrate rule can push is non-empty. -/
theorem carbsSentences_length_pos (o : Option Int) :
    ∀ s ∈ carbsSentences o, 0 < s.length := by
  intro s hs
  rcases o with _ | c
  · simp [carbsSentences] at hs
  · simp only [carbsSentences] at hs
    split_ifs at hs <;>
      first
      | (simp only [List.mem_singleton] at hs; subst hs; decide)
      | simp at hs

/-- Every sentence the sugar rule can push is non-empty. -/
theorem sugarSentences_length_pos (o : Option Int) :
    ∀ s ∈ sugarSentences o, 0 < s.length := by
  intro s hs
  rcases o with _ | x
  · simp [sugarSentences] at hs
  · simp only [sugarSentences] at hs
    split_ifs at hs <;>
      first
      | (simp only [List.mem_singleton] at hs; subst hs; decide)
      | simp at hs

/-- Every sentence the caffeine rule can push is non-empty. -/
theorem caffeineSentences_length_pos (o : Option Int) :
    ∀ s ∈ caffeineSentences o, 0 < s.length := by
  intro s hs
  rcases o with _ | c
  · simp [caffeineSentences] at hs
  · simp only [caffeineSentences] at hs
    split_ifs at hs <;>
      first
      | (simp only [List.mem_singleton] at hs; subst hs; decide)
      | (simp only [List.mem_singleton] at hs; subst hs;
         rw [String.length_append]
         have hlit : 0 < ("mg의 카페인이 집중력 향상에 도움을 줍니다.").length := by
           decide
         omega)
      | simp at hs

/-- Every fired health-story sentence is non-empty. -/
theorem healthSentences_length_pos (n : NutritionEstimate) :
    ∀ s ∈ healthSentences n, 0 < s.length := by
  intro s hs
  simp only [healthSentences, List.mem_append, or_assoc] at hs
  rcases hs with hs | hs | hs | hs | hs
  · exact caloriesSentences_length_pos _ s hs
  · exact proteinSentences_length_pos _ s hs
  · exact carbsSentences_length_pos _ s hs
  · exact sugarSentences_length_pos _ s hs
  · exact caffeineSentences_length_pos _ s hs

/-- The space join of a non-empty list of non-empty strings is non-empty. -/
theorem joinSpace_length_pos (l : List String)
    (hall : ∀ s ∈ l, 0 < s.length) (hne : l ≠ []) :
    0 < (joinSpace l).length := by
  rcases l with _ | ⟨s, _ | ⟨b, t⟩⟩
  · exact absurd rfl hne
  · exact hall s (by simp)
  · have hjs : joinSpace (s :: b :: t) = s ++ " " ++ joinSpace (b :: t) := rfl
    rw [hjs, String.length_append, String.length_append]
    have hslen := hall s (by simp)
    omega

/-- Claim C9: generateHealthStory is total and returns a non-empty string:
the first fixed default sentence when the item has no nutrition data, the
second fixed default sentence when nutrition is present but no rule fires,
and otherwise the space-joined fired sentences in the fixed rule order
calories, protein, carbs, sugar, caffeine. -/
theorem claim_C9 (menu : MenuItem) :
    0 < (generateHealthStory menu).length ∧
    (menu.nutrition = none →
      generateHealthStory menu =
        menu.name ++ "은(는) 신선한 재료로 만들어진 특별한 메뉴입니다.") ∧
    (∀ n, menu.nutrition = some n → healthSentences n = [] →
      generateHealthStory menu =
        menu.name ++ "은(는) 균형 잡힌 영양으로 건강한 식사를 제공합니다.") ∧
    (∀ n, menu.nutrition = some n → healthSentences n ≠ [] →
      generateHealthStory menu = joinSpace (healthSentences n)) := by
  refine ⟨?_, ?_, ?_, ?_⟩
  · rcases hn : menu.nutrition with _ | n
    · simp only [generateHealthStory, hn]
      rw [String.length_append]
      have hlit : 0 < ("은(는) 신선한 재료로 만들어진 특별한 메뉴입니다.").length := by
        decide
      omega
    · simp only [generateHealthStory, hn]
      by_cases he : (healthSentences n).isEmpty
      · rw [if_pos he, String.length_append]
        have hlit : 0 < ("은(는) 균형 잡힌 영양으로 건강한 식사를 제공합니다.").length := by
          decide
        omega
      · rw [if_neg he]
        refine joinSpace_length_pos _ (healthSentences_length_pos n) ?_
        intro hl
        exact he (by simp [hl])
  · intro h
    simp [generateHealthStory, h]
  · intro n hn hl
    simp [generateHealthStory, hn, hl]
  · intro n hn hl
    simp only [generateHealthStory, hn]
    rw [if_neg (by simp [hl])]

/-- Sample menu item without nutrition data, for the claim C9 witness. -/
def sampleMenu : MenuItem := ⟨1, "아메리카노", "커피", 4500, none, none, none⟩

/-- Witness for claim C9 at a menu item without nutrition data. -/
theorem claim_C9_witness :
    0 < (generateHealthStory sampleMenu).length ∧
    generateHealthStory sampleMenu =
      "아메리카노" ++ "은(는) 신선한 재료로 만들어진 특별한 메뉴입니다." :=
  ⟨(claim_C9 sampleMenu).1, (claim_C9 sampleMenu).2.1 rfl⟩

/-- Claim C10: getMenuCategoriesByStoreType is total and always returns a
non-empty category list; matching is case-insensitive because the input is
lower-cased before the substring tests (inputs equal after lower-casing get
equal results); and inputs matching no keyword branch fall through to the
fixed default list. -/
theorem claim_C10 (t t1 t2 : String) :
    getMenuCategoriesByStoreType t ≠ [] ∧
    (t1.data.map lowerChar = t2.data.map lowerChar →
      getMenuCategoriesByStoreType t1 = getMenuCategoriesByStoreType t2) ∧
    ((∀ kw ∈ storeTypeKeywords,
        hasSub kw.data (t.data.map lowerChar) = false) →
      getMenuCategoriesByStoreType t = ["식사", "음료"]) := by
  refine ⟨?_, ?_, ?_⟩
  · simp only [getMenuCategoriesByStoreType]
    split_ifs <;> simp
  · intro h
    simp only [getMenuCategoriesByStoreType, h]
  · intro h
    have h1 := h "중국" (by simp [storeTypeKeywords])
    have h2 := h "일식" (by simp [storeTypeKeywords])
    have h3 := h "초밥" (by simp [storeTypeKeywords])
    have h4 := h "한식" (by simp [storeTypeKeywords])
    have h5 := h "양식" (by simp [storeTypeKeywords])
    have h6 := h "이탈리" (by simp [storeTypeKeywords])
    have h7 := h "파스타" (by simp [storeTypeKeywords])
    have h8 := h "분식" (by simp [storeTypeKeywords])
    have h9 := h "치킨" (by simp [storeTypeKeywords])
    have h10 := h "카페" (by simp [storeTypeKeywords])
    have h11 := h "커피" (by simp [storeTypeKeywords])
    have h12 := h "디저트" (by simp [storeTypeKeywords])
    have h13 := h "베이커리" (by simp [storeTypeKeywords])
    have h14 := h "빵" (by simp [storeTypeKeywords])
    simp [getMenuCategoriesByStoreType, h1, h2, h3, h4, h5, h6, h7, h8, h9,
      h10, h11, h12, h13, h14]

/-- Witness for claim C10: an unmatched store type falls through to the
default list, and upper-case and lower-case spellings of cafe agree. -/
theorem claim_C10_witness :
    getMenuCategoriesByStoreType "정육점" = ["식사", "음료"] ∧
    getMenuCategoriesByStoreType "CAFE카페" =
      getMenuCategoriesByStoreType "cafe카페" :=
  ⟨(claim_C10 "정육점" "" "").2.2 (by decide),
   (claim_C10 "" "CAFE카페" "cafe카페").2.1 (by decide)⟩
